import Mathlib

/-!
Verification of the SpendWise expense-tracking core: a shallow embedding of
the server actions (getCategories, getExpenses, getDashboardSummary,
createExpense, deleteExpense, clearAllExpenses, createDemoExpenses) as pure
functions over an explicit store, with the ambient authenticated user passed
as an explicit `Option String` caller, and theorems about them.

Modelling conventions: opaque record ids are naturals drawn from a store
counter; calendar timestamps are integers (epoch milliseconds); decimal
currency amounts are exact integers in minor units (hundredths), the
standard drift-free representation of fixed-precision decimals.
-/

structure Category where
  id : String
  name : String
  deriving Repr, DecidableEq

structure Expense where
  id : Nat
  userId : String
  amount : Int
  categoryId : String
  date : Int
  note : Option String
  deriving Repr, DecidableEq

structure Store where
  categories : List Category
  expenses : List Expense
  nextId : Nat
  deriving Repr, DecidableEq

inductive Err where
  | unauthorized
  | invalidAmount
  | notFoundOrUnauthorized
  | indexError
  deriving Repr, DecidableEq

inductive SortBy where
  | dateDesc
  | dateAsc
  | amountDesc
  | amountAsc
  deriving Repr, DecidableEq

structure Pagination where
  page : Nat
  pageSize : Nat
  total : Nat
  totalPages : Nat
  deriving Repr, DecidableEq

structure CategorySummary where
  name : String
  total : Int
  count : Nat
  deriving Repr, DecidableEq

structure DashboardSummary where
  total : Int
  count : Nat
  byCategory : List CategorySummary
  deriving Repr, DecidableEq

deriving instance DecidableEq for Except

/-- `getCategories`: returns all categories ordered by name ascending.
The source performs no identity check before reading (the caller argument
is threaded for uniformity but unused). -/
def getCategories (_caller : Option String) (store : Store) :
    Except Err (List Category) :=
  Except.ok (List.insertionSort (fun a b => a.name ≤ b.name) store.categories)

/-- The `where` clause of `getExpenses`: `userId` equality, inclusive date
range, and the category filter only when a truthy `categoryId` other than
the sentinel string is supplied (`categoryId && categoryId !== 'all'`:
JavaScript truthiness excludes the empty string). -/
def expMatches (uid : String) (startDate endDate : Int)
    (categoryId : Option String) (x : Expense) : Bool :=
  x.userId == uid && decide (startDate ≤ x.date) && decide (x.date ≤ endDate) &&
    (match categoryId with
     | some c => if c ≠ "" ∧ c ≠ "all" then x.categoryId == c else true
     | none => true)

/-- The single `orderBy` key of `getExpenses`, as a boolean preorder used
for sorting. -/
def sortLe : SortBy → Expense → Expense → Bool
  | SortBy.dateDesc, a, b => decide (b.date ≤ a.date)
  | SortBy.dateAsc, a, b => decide (a.date ≤ b.date)
  | SortBy.amountDesc, a, b => decide (b.amount ≤ a.amount)
  | SortBy.amountAsc, a, b => decide (a.amount ≤ b.amount)

/-- `Math.ceil(total / pageSize)` on naturals, for `pageSize ≥ 1`. -/
def jsCeilDiv (total pageSize : Nat) : Nat := (total + pageSize - 1) / pageSize

/-- The `include: { category: true }` join of an expense with its category. -/
def joinCategory (store : Store) (x : Expense) : Expense × Option Category :=
  (x, store.categories.find? (fun c => c.id == x.categoryId))

/-- `getExpenses`: per-user, date-filtered, optionally category-filtered,
sorted, paginated listing with pagination metadata. -/
def getExpenses (caller : Option String) (store : Store)
    (startDate endDate : Int) (categoryId : Option String) (sortBy : SortBy)
    (page pageSize : Nat) :
    Except Err (List (Expense × Option Category) × Pagination) :=
  match caller with
  | none => Except.error Err.unauthorized
  | some uid =>
    let matching := store.expenses.filter (expMatches uid startDate endDate categoryId)
    let total := matching.length
    let sorted := List.insertionSort (fun a b => sortLe sortBy a b = true) matching
    let pageItems := (sorted.drop ((page - 1) * pageSize)).take pageSize
    Except.ok (pageItems.map (joinCategory store),
      { page := page, pageSize := pageSize, total := total,
        totalPages := jsCeilDiv total pageSize })

/-- `exp.category.name` under the join: the display name of the expense's
category (empty when the foreign key is dangling, which referential
integrity rules out). -/
def categoryNameOf (store : Store) (x : Expense) : String :=
  match store.categories.find? (fun c => c.id == x.categoryId) with
  | some c => c.name
  | none => ""

/-- One step of the `byCategory` accumulator, a string-keyed object used as
a map: an existing key's group gets the amount added and the count bumped,
a new key is created at the end (JavaScript objects keep string keys unique
and in insertion order, which is exactly an association-list update). -/
def addToGroups : List CategorySummary → String → Int → List CategorySummary
  | [], name, amt => [{ name := name, total := amt, count := 1 }]
  | g :: gs, name, amt =>
    if g.name == name then
      { g with total := g.total + amt, count := g.count + 1 } :: gs
    else
      g :: addToGroups gs name amt

/-- The `reduce` building the per-category groups of the dashboard. -/
def groupByCategory (store : Store) (xs : List Expense) : List CategorySummary :=
  xs.foldl (fun acc x => addToGroups acc (categoryNameOf store x) x.amount) []

/-- The unpaginated window filter of `getDashboardSummary`. -/
def windowExpenses (uid : String) (startDate endDate : Int) (store : Store) :
    List Expense :=
  store.expenses.filter (fun x =>
    x.userId == uid && decide (startDate ≤ x.date) && decide (x.date ≤ endDate))

/-- `getDashboardSummary`: total, count, and per-category-name groups of the
caller's expenses in the window, groups sorted descending by total. -/
def getDashboardSummary (caller : Option String) (store : Store)
    (startDate endDate : Int) : Except Err DashboardSummary :=
  match caller with
  | none => Except.error Err.unauthorized
  | some uid =>
    let expenses := windowExpenses uid startDate endDate store
    let total := expenses.foldl (fun s x => s + x.amount) 0
    let count := expenses.length
    let byCategory := groupByCategory store expenses
    Except.ok
      { total := total, count := count,
        byCategory := List.insertionSort (fun a b => b.total ≤ a.total) byCategory }

/-- `data.note || null`: a JavaScript falsy note (absent or empty string)
is stored as null. -/
def jsTruthyNote : Option String → Option String
  | some s => if s = "" then none else some s
  | none => none

/-- `createExpense`: rejects a non-positive amount, otherwise inserts one
expense owned by the caller with a fresh id. -/
def createExpense (caller : Option String) (store : Store) (amount : Int)
    (categoryId : String) (date : Int) (note : Option String) :
    Except Err Store :=
  match caller with
  | none => Except.error Err.unauthorized
  | some uid =>
    if amount ≤ 0 then Except.error Err.invalidAmount
    else Except.ok
      { store with
        expenses := store.expenses ++
          [{ id := store.nextId, userId := uid, amount := amount,
             categoryId := categoryId, date := date, note := jsTruthyNote note }],
        nextId := store.nextId + 1 }

/-- `deleteExpense`: looks the id up; absent or foreign-owned records give
the same error; otherwise removes the record. -/
def deleteExpense (caller : Option String) (store : Store) (id : Nat) :
    Except Err Store :=
  match caller with
  | none => Except.error Err.unauthorized
  | some uid =>
    match store.expenses.find? (fun x => x.id == id) with
    | none => Except.error Err.notFoundOrUnauthorized
    | some x =>
      if x.userId ≠ uid then Except.error Err.notFoundOrUnauthorized
      else Except.ok
        { store with
          expenses := store.expenses.filter (fun y => !(y.id == id)) }

/-- `clearAllExpenses`: `deleteMany` of the caller's expenses, returning the
count removed. -/
def clearAllExpenses (caller : Option String) (store : Store) :
    Except Err (Store × Nat) :=
  match caller with
  | none => Except.error Err.unauthorized
  | some uid =>
    Except.ok
      ({ store with
         expenses := store.expenses.filter (fun x => !(x.userId == uid)) },
       store.expenses.countP (fun x => x.userId == uid))

/-- One day in epoch milliseconds (`86400000`). -/
def dayMs : Int := 86400000

/-- The hand-authored demo catalog of `createDemoExpenses`, as
(amount, categoryId, date, note) tuples. The first six categories are read
unconditionally (a missing one is a runtime error, modelled as `none`);
the 7th, 8th and 9th are guarded. -/
def demoCatalog (categories : List Category) (now : Int) :
    Option (List (Int × String × Int × String)) :=
  match categories[0]?, categories[1]?, categories[2]?, categories[3]?,
      categories[4]?, categories[5]? with
  | some c0, some c1, some c2, some c3, some c4, some c5 => some (
    [ (4550, c0.id, now, "Lunch at Italian restaurant"),
      (8530, c0.id, now - dayMs * 3, "Grocery shopping at Whole Foods"),
      (1275, c0.id, now - dayMs * 5, "Morning coffee and pastry"),
      (6720, c0.id, now - dayMs * 8, "Dinner with friends"),
      (2890, c0.id, now - dayMs * 12, "Takeout pizza"),
      (1299, c1.id, now - dayMs, "Subway monthly pass"),
      (5500, c1.id, now - dayMs * 6, "Gas station fill-up"),
      (850, c1.id, now - dayMs * 14, "Uber ride home"),
      (12500, c1.id, now - dayMs * 20, "Car maintenance and oil change"),
      (8900, c2.id, now - dayMs * 2, "New running shoes"),
      (15645, c2.id, now - dayMs * 9, "Winter jacket"),
      (3499, c2.id, now - dayMs * 16, "Phone case and accessories"),
      (4200, c2.id, now - dayMs * 22, "Books from bookstore"),
      (1500, c3.id, now - dayMs * 4, "Movie tickets for two"),
      (4500, c3.id, now - dayMs * 11, "Concert tickets"),
      (1999, c3.id, now - dayMs * 18, "Netflix subscription"),
      (3250, c3.id, now - dayMs * 24, "Bowling night"),
      (12000, c4.id, now - dayMs * 7, "Monthly electric bill"),
      (6500, c4.id, now - dayMs * 7, "Internet bill"),
      (8999, c4.id, now - dayMs * 15, "Phone bill"),
      (20000, c5.id, now - dayMs * 10, "Doctor checkup copay"),
      (3550, c5.id, now - dayMs * 17, "Pharmacy prescription"),
      (7500, c5.id, now - dayMs * 25, "Dental cleaning") ]
    ++ (match categories[6]? with
        | some c6 =>
          [ (45000, c6.id, now - dayMs * 13, "Weekend hotel stay"),
            (18000, c6.id, now - dayMs * 19, "Flight tickets") ]
        | none => [])
    ++ (match categories[7]? with
        | some c7 =>
          [ (29900, c7.id, now - dayMs * 21, "Online course subscription"),
            (4850, c7.id, now - dayMs * 27, "Study materials") ]
        | none => [])
    ++ (match categories[8]? with
        | some c8 =>
          [ (2500, c8.id, now - dayMs * 23, "Gift for friend"),
            (1599, c8.id, now - dayMs * 28, "Miscellaneous supplies") ]
        | none => []))
  | _, _, _, _, _, _ => none

/-- `createDemoExpenses`: builds the demo catalog from the loaded category
list and inserts one expense per tuple, owned by the caller, with fresh
consecutive ids. -/
def createDemoExpenses (caller : Option String) (now : Int) (store : Store) :
    Except Err Store :=
  match caller with
  | none => Except.error Err.unauthorized
  | some uid =>
    match demoCatalog store.categories now with
    | none => Except.error Err.indexError
    | some items =>
      Except.ok
        { store with
          expenses := store.expenses ++ items.enum.map (fun p =>
            { id := store.nextId + p.1, userId := uid, amount := p.2.1,
              categoryId := p.2.2.1, date := p.2.2.2.1, note := some p.2.2.2.2 }),
          nextId := store.nextId + items.length }

/-! Claim-side definitions, written from the specification's wording, to be
compared with the embedded operations. -/

/-- Claim-side matching predicate for `listExpenses`: owner equality, both
ends of the window inclusive, and category equality exactly when a
`categoryId` other than the sentinel is given. -/
def specMatches (uid : String) (startDate endDate : Int)
    (categoryId : Option String) (x : Expense) : Bool :=
  x.userId == uid && decide (startDate ≤ x.date) && decide (x.date ≤ endDate) &&
    (match categoryId with
     | some c => if c = "all" then true else x.categoryId == c
     | none => true)

/-- Claim-side ceiling of `a / b`: the quotient, plus one when the division
is inexact. -/
def specCeil (a b : Nat) : Nat := a / b + (if a % b = 0 then 0 else 1)

/-- Per-name accumulated total of a group list. -/
def accTotal (n : String) (groups : List CategorySummary) : Int :=
  ((groups.filter (fun g => g.name == n)).map (fun g => g.total)).sum

/-- Per-name accumulated count of a group list. -/
def accCount (n : String) (groups : List CategorySummary) : Nat :=
  ((groups.filter (fun g => g.name == n)).map (fun g => g.count)).sum

/-- Claim-side total of the expenses carrying a given display name. -/
def groupTotal (nm : Expense → String) (n : String) (xs : List Expense) : Int :=
  ((xs.filter (fun x => nm x == n)).map (fun x => x.amount)).sum

/-- Claim-side count of the expenses carrying a given display name. -/
def groupCount (nm : Expense → String) (n : String) (xs : List Expense) : Nat :=
  xs.countP (fun x => nm x == n)

/-- The expected number of demo catalog entries for a given category count:
23 unconditional tuples, plus 2 for each of the 7th, 8th and 9th categories
that exist. -/
def demoCount (n : Nat) : Nat :=
  23 + (if 7 ≤ n then 2 else 0) + (if 8 ≤ n then 2 else 0) +
    (if 9 ≤ n then 2 else 0)

/-! Concrete stores used by the worked examples and witnesses. -/

def emptyStore : Store := { categories := [], expenses := [], nextId := 0 }

def oneCategoryStore : Store :=
  { categories := [{ id := "c1", name := "Food" }], expenses := [], nextId := 0 }

/-- Twenty-five expenses of one user, for the pagination example. -/
def store25 : Store :=
  { categories := [],
    expenses := (List.range 25).map (fun i =>
      { id := i, userId := "u", amount := 1, categoryId := "c",
        date := (i : Int), note := none }),
    nextId := 25 }

/-- The aggregation example: 100 and 200 in Food, 150 in Transport. -/
def exampleStore : Store :=
  { categories := [{ id := "c1", name := "Food" }, { id := "c2", name := "Transport" }],
    expenses :=
      [ { id := 0, userId := "u", amount := 100, categoryId := "c1", date := 1, note := none },
        { id := 1, userId := "u", amount := 200, categoryId := "c1", date := 2, note := none },
        { id := 2, userId := "u", amount := 150, categoryId := "c2", date := 3, note := none } ],
    nextId := 3 }

def exampleSummary : DashboardSummary :=
  { total := 450, count := 3,
    byCategory :=
      [ { name := "Food", total := 300, count := 2 },
        { name := "Transport", total := 150, count := 1 } ] }

/-- A store holding one expense of a different user. -/
def foreignStore : Store :=
  { categories := [],
    expenses := [{ id := 1, userId := "other", amount := 5, categoryId := "c",
                   date := 0, note := none }],
    nextId := 2 }

/-- Six categories, the minimum the demo seeder tolerates. -/
def sixCategoryStore : Store :=
  { categories :=
      [ { id := "a", name := "Food & Dining" }, { id := "b", name := "Transportation" },
        { id := "c", name := "Shopping" }, { id := "d", name := "Entertainment" },
        { id := "e", name := "Bills & Utilities" }, { id := "f", name := "Healthcare" } ],
    expenses := [], nextId := 0 }

/-- A helper projecting a successful result store out of an `Except`. -/
def okStore (r : Except Err Store) (dflt : Store) : Store :=
  match r with
  | Except.ok s => s
  | Except.error _ => dflt

/-- A helper projecting a successful listing result out of an `Except`. -/
def okPair (r : Except Err (List (Expense × Option Category) × Pagination)) :
    List (Expense × Option Category) × Pagination :=
  match r with
  | Except.ok p => p
  | Except.error _ =>
    ([], ({ page := 0, pageSize := 0, total := 0, totalPages := 0 } : Pagination))

/-- The IEEE-754 binary64 value nearest to the decimal 0.1, as an exact
rational: it is not 1/10. -/
def double01 : ℚ := 3602879701896397 / 2 ^ 55

/-- The IEEE-754 binary64 value nearest to the decimal 0.2, as an exact
rational: it is not 2/10. -/
def double02 : ℚ := 3602879701896397 / 2 ^ 54

/-- Two expenses of 0.10 and 0.20 (10 and 20 minor units) in one
category, within the window. -/
def driftStore : Store :=
  { categories := [{ id := "c1", name := "Food" }],
    expenses :=
      [ { id := 0, userId := "u", amount := 10, categoryId := "c1", date := 1, note := none },
        { id := 1, userId := "u", amount := 20, categoryId := "c1", date := 2, note := none } ],
    nextId := 2 }

/-! Helper lemmas. -/

theorem jsCeilDiv_eq_specCeil (a b : Nat) (hb : 0 < b) :
    jsCeilDiv a b = specCeil a b := by
  unfold jsCeilDiv specCeil
  have hdm := Nat.div_add_mod a b
  have hmlt : a % b < b := Nat.mod_lt _ hb
  rcases Nat.eq_zero_or_pos (a % b) with h | h
  · have ha : a + b - 1 = b * (a / b) + (b - 1) := by omega
    have hdiv : (b - 1) / b = 0 := Nat.div_eq_of_lt (by omega)
    rw [ha, Nat.mul_add_div hb, hdiv]
    simp [h]
  · have ha : a + b - 1 = b * (a / b + 1) + (a % b - 1) := by
      have hb' : b * (a / b + 1) = b * (a / b) + b := by ring
      omega
    have hdiv : (a % b - 1) / b = 0 := Nat.div_eq_of_lt (by omega)
    rw [ha, Nat.mul_add_div hb, hdiv]
    have h0 : ¬ a % b = 0 := by omega
    simp [h0]

theorem accTotal_cons (g : CategorySummary) (gs : List CategorySummary) (m : String) :
    accTotal m (g :: gs) = (if g.name == m then g.total else 0) + accTotal m gs := by
  unfold accTotal
  rw [List.filter_cons]
  split <;> simp [*]

theorem accCount_cons (g : CategorySummary) (gs : List CategorySummary) (m : String) :
    accCount m (g :: gs) = (if g.name == m then g.count else 0) + accCount m gs := by
  unfold accCount
  rw [List.filter_cons]
  split <;> simp [*]

theorem accTotal_addToGroups (groups : List CategorySummary) (n : String)
    (amt : Int) (m : String) :
    accTotal m (addToGroups groups n amt) =
      accTotal m groups + (if n = m then amt else 0) := by
  induction groups with
  | nil =>
    unfold addToGroups
    rw [accTotal_cons]
    by_cases h : n = m <;> simp [h, accTotal]
  | cons g gs ih =>
    unfold addToGroups
    by_cases hg : (g.name == n) = true
    · rw [if_pos hg, accTotal_cons, accTotal_cons]
      have hgn : g.name = n := by simpa using hg
      by_cases hnm : n = m
      · subst hnm
        simp [hgn]
        ring
      · simp [hgn, hnm]
    · rw [if_neg hg, accTotal_cons, accTotal_cons, ih]
      ring

theorem accCount_addToGroups (groups : List CategorySummary) (n : String)
    (amt : Int) (m : String) :
    accCount m (addToGroups groups n amt) =
      accCount m groups + (if n = m then 1 else 0) := by
  induction groups with
  | nil =>
    unfold addToGroups
    rw [accCount_cons]
    by_cases h : n = m <;> simp [h, accCount]
  | cons g gs ih =>
    unfold addToGroups
    by_cases hg : (g.name == n) = true
    · rw [if_pos hg, accCount_cons, accCount_cons]
      have hgn : g.name = n := by simpa using hg
      by_cases hnm : n = m
      · subst hnm
        simp [hgn]
        ring
      · simp [hgn, hnm]
    · rw [if_neg hg, accCount_cons, accCount_cons, ih]
      ring

theorem mem_name_addToGroups (groups : List CategorySummary) (n m : String)
    (amt : Int) :
    m ∈ (addToGroups groups n amt).map (fun g => g.name) ↔
      m ∈ groups.map (fun g => g.name) ∨ m = n := by
  induction groups with
  | nil => simp [addToGroups]
  | cons g gs ih =>
    unfold addToGroups
    by_cases hg : (g.name == n) = true
    · have hgn : g.name = n := by simpa using hg
      rw [if_pos hg]
      simp [hgn]
      tauto
    · rw [if_neg hg]
      rw [List.map_cons, List.mem_cons, ih, List.map_cons, List.mem_cons]
      tauto

theorem nodup_addToGroups (groups : List CategorySummary) (n : String) (amt : Int)
    (h : (groups.map (fun g => g.name)).Nodup) :
    ((addToGroups groups n amt).map (fun g => g.name)).Nodup := by
  induction groups with
  | nil => simp [addToGroups]
  | cons g gs ih =>
    rw [List.map_cons, List.nodup_cons] at h
    unfold addToGroups
    by_cases hg : (g.name == n) = true
    · rw [if_pos hg]
      rw [List.map_cons, List.nodup_cons]
      exact ⟨h.1, h.2⟩
    · rw [if_neg hg]
      rw [List.map_cons, List.nodup_cons]
      refine ⟨?_, ih h.2⟩
      rw [mem_name_addToGroups]
      have hne : ¬ g.name = n := by simpa using hg
      tauto

theorem foldl_addToGroups_accTotal (nm : Expense → String) (xs : List Expense) :
    ∀ (acc : List CategorySummary) (m : String),
      accTotal m (xs.foldl (fun a x => addToGroups a (nm x) x.amount) acc) =
        accTotal m acc + groupTotal nm m xs := by
  induction xs with
  | nil =>
    intro acc m
    simp [groupTotal]
  | cons x xs ih =>
    intro acc m
    rw [List.foldl_cons, ih, accTotal_addToGroups]
    have hstep : groupTotal nm m (x :: xs) =
        (if nm x = m then x.amount else 0) + groupTotal nm m xs := by
      unfold groupTotal
      rw [List.filter_cons]
      by_cases h : nm x = m <;> simp [h]
    rw [hstep]
    ring

theorem foldl_addToGroups_accCount (nm : Expense → String) (xs : List Expense) :
    ∀ (acc : List CategorySummary) (m : String),
      accCount m (xs.foldl (fun a x => addToGroups a (nm x) x.amount) acc) =
        accCount m acc + groupCount nm m xs := by
  induction xs with
  | nil =>
    intro acc m
    simp [groupCount]
  | cons x xs ih =>
    intro acc m
    rw [List.foldl_cons, ih, accCount_addToGroups]
    have hstep : groupCount nm m (x :: xs) =
        (if nm x = m then 1 else 0) + groupCount nm m xs := by
      unfold groupCount
      rw [List.countP_cons]
      by_cases h : nm x = m
      · simp [h]
        omega
      · simp [h]
    rw [hstep]
    ring

theorem foldl_addToGroups_mem (nm : Expense → String) (xs : List Expense) :
    ∀ (acc : List CategorySummary) (m : String),
      m ∈ (xs.foldl (fun a x => addToGroups a (nm x) x.amount) acc).map
            (fun g => g.name) ↔
        m ∈ acc.map (fun g => g.name) ∨ m ∈ xs.map nm := by
  induction xs with
  | nil =>
    intro acc m
    simp
  | cons x xs ih =>
    intro acc m
    rw [List.foldl_cons, ih, mem_name_addToGroups, List.map_cons, List.mem_cons]
    tauto

theorem foldl_addToGroups_nodup (nm : Expense → String) (xs : List Expense) :
    ∀ (acc : List CategorySummary),
      (acc.map (fun g => g.name)).Nodup →
      ((xs.foldl (fun a x => addToGroups a (nm x) x.amount) acc).map
        (fun g => g.name)).Nodup := by
  induction xs with
  | nil =>
    intro acc h
    exact h
  | cons x xs ih =>
    intro acc h
    rw [List.foldl_cons]
    exact ih _ (nodup_addToGroups acc (nm x) x.amount h)

theorem filter_name_eq_single (l : List CategorySummary) (g : CategorySummary)
    (h : (l.map (fun x => x.name)).Nodup) (hg : g ∈ l) :
    l.filter (fun x => x.name == g.name) = [g] := by
  induction l with
  | nil => cases hg
  | cons a l ih =>
    rw [List.map_cons, List.nodup_cons] at h
    rcases List.mem_cons.mp hg with rfl | hgl
    · have hnil : List.filter (fun x => x.name == g.name) l = [] := by
        rw [List.filter_eq_nil_iff]
        intro x hx
        simp
        intro hxe
        exact h.1 (hxe ▸ List.mem_map_of_mem (fun y => y.name) hx)
      rw [List.filter_cons]
      simp [hnil]
    · have hne : (a.name == g.name) = false := by
        simp
        intro he
        exact h.1 (he ▸ List.mem_map_of_mem (fun y => y.name) hgl)
      rw [List.filter_cons, hne]
      simp
      exact ih h.2 hgl

theorem group_of_mem (l : List CategorySummary) (g : CategorySummary)
    (h : (l.map (fun x => x.name)).Nodup) (hg : g ∈ l) :
    accTotal g.name l = g.total ∧ accCount g.name l = g.count := by
  unfold accTotal accCount
  rw [filter_name_eq_single l g h hg]
  simp

theorem foldl_add_amount (xs : List Expense) :
    ∀ (a : Int), xs.foldl (fun s x => s + x.amount) a =
      a + (xs.map (fun x => x.amount)).sum := by
  induction xs with
  | nil =>
    intro a
    simp
  | cons x xs ih =>
    intro a
    rw [List.foldl_cons, ih, List.map_cons, List.sum_cons]
    ring

theorem demoCatalog_isSome (cats : List Category) (now : Int)
    (h : 6 ≤ cats.length) : ∃ items, demoCatalog cats now = some items := by
  have h0 := List.getElem?_eq_getElem (show 0 < cats.length by omega)
  have h1 := List.getElem?_eq_getElem (show 1 < cats.length by omega)
  have h2 := List.getElem?_eq_getElem (show 2 < cats.length by omega)
  have h3 := List.getElem?_eq_getElem (show 3 < cats.length by omega)
  have h4 := List.getElem?_eq_getElem (show 4 < cats.length by omega)
  have h5 := List.getElem?_eq_getElem (show 5 < cats.length by omega)
  rw [Option.ne_none_iff_exists'.symm]
  intro hn
  unfold demoCatalog at hn
  rw [h0, h1, h2, h3, h4, h5] at hn
  exact Option.noConfusion hn

theorem demoCatalog_none (cats : List Category) (now : Int)
    (h : cats.length < 6) : demoCatalog cats now = none := by
  unfold demoCatalog
  cases h0 : cats[0]? <;> cases h1 : cats[1]? <;> cases h2 : cats[2]? <;>
    cases h3 : cats[3]? <;> cases h4 : cats[4]? <;> cases h5 : cats[5]? <;>
    first
      | rfl
      | (obtain ⟨w5, -⟩ := List.getElem?_eq_some.mp h5
         omega)

theorem isSome_lookup_iff {α : Type} (l : List α) (n : Nat) :
    l[n]?.isSome = true ↔ n < l.length := by
  rw [Option.isSome_iff_exists]
  constructor
  · rintro ⟨a, ha⟩
    obtain ⟨w, -⟩ := List.getElem?_eq_some.mp ha
    exact w
  · intro hw
    exact ⟨_, List.getElem?_eq_getElem hw⟩

theorem demoCatalog_length (cats : List Category) (now : Int)
    (items : List (Int × String × Int × String)) (h : 6 ≤ cats.length)
    (heq : demoCatalog cats now = some items) :
    items.length = demoCount cats.length := by
  have h0 := List.getElem?_eq_getElem (show 0 < cats.length by omega)
  have h1 := List.getElem?_eq_getElem (show 1 < cats.length by omega)
  have h2 := List.getElem?_eq_getElem (show 2 < cats.length by omega)
  have h3 := List.getElem?_eq_getElem (show 3 < cats.length by omega)
  have h4 := List.getElem?_eq_getElem (show 4 < cats.length by omega)
  have h5 := List.getElem?_eq_getElem (show 5 < cats.length by omega)
  unfold demoCatalog at heq
  rw [h0, h1, h2, h3, h4, h5] at heq
  have heq' := Option.some.inj heq
  subst heq'
  rw [List.length_append, List.length_append, List.length_append]
  unfold demoCount
  have s6 := isSome_lookup_iff cats 6
  have s7 := isSome_lookup_iff cats 7
  have s8 := isSome_lookup_iff cats 8
  cases h6 : cats[6]? <;> cases h7 : cats[7]? <;> cases h8 : cats[8]? <;>
    rw [h6] at s6 <;> rw [h7] at s7 <;> rw [h8] at s8 <;>
    simp only [List.length_cons, List.length_nil] <;>
    simp at s6 s7 s8 <;>
    split_ifs <;> omega

theorem createDemoExpenses_ok (uid : String) (now : Int) (store : Store)
    (items : List (Int × String × Int × String))
    (heq : demoCatalog store.categories now = some items) :
    createDemoExpenses (some uid) now store =
      Except.ok { store with
        expenses := store.expenses ++ items.enum.map (fun p =>
          { id := store.nextId + p.1, userId := uid, amount := p.2.1,
            categoryId := p.2.2.1, date := p.2.2.2.1, note := some p.2.2.2.2 }),
        nextId := store.nextId + items.length } := by
  unfold createDemoExpenses
  rw [heq]

theorem countP_map_const_true {α β : Type} (f : α → β) (p : β → Bool)
    (l : List α) (h : ∀ a, p (f a) = true) : (l.map f).countP p = l.length := by
  rw [List.countP_map]
  exact List.countP_eq_length.mpr (fun a _ => h a)

theorem countP_demo_insert (uid : String) (base : Nat)
    (items : List (Int × String × Int × String)) :
    (items.enum.map (fun p =>
      ({ id := base + p.1, userId := uid, amount := p.2.1,
         categoryId := p.2.2.1, date := p.2.2.2.1,
         note := some p.2.2.2.2 } : Expense))).countP
      (fun x => x.userId == uid) = items.length := by
  rw [countP_map_const_true _ _ _ (fun a => by simp), List.enum_length]

/-! Claim theorems. -/

/-- C3 (counterexample): `getCategories` succeeds for a caller with no
resolved identity — the source performs no identity check before reading
categories — contradicting the claim that category listing fails with
`Unauthorized` for unauthenticated callers. -/
theorem getCategories_no_identity_check :
    getCategories none oneCategoryStore =
      Except.ok [{ id := "c1", name := "Food" }] ∧
    getCategories none oneCategoryStore ≠ Except.error Err.unauthorized := by
  constructor
  · rfl
  · intro h
    exact Except.noConfusion h

/-- C3 (amended): every operation other than category listing —
listing, summarizing, creating, deleting, clearing, and demo-seeding —
fails with `Unauthorized` when the caller has no resolved identity, before
any data access, leaving the store unchanged (the error carries no store). -/
theorem operations_require_identity :
    ∀ (store : Store) (s e : Int) (catId : Option String) (sb : SortBy)
      (page pageSize : Nat) (amount : Int) (cid : String) (d : Int)
      (note : Option String) (eid : Nat) (now : Int),
      getExpenses none store s e catId sb page pageSize =
          Except.error Err.unauthorized ∧
      getDashboardSummary none store s e = Except.error Err.unauthorized ∧
      createExpense none store amount cid d note =
          Except.error Err.unauthorized ∧
      deleteExpense none store eid = Except.error Err.unauthorized ∧
      clearAllExpenses none store = Except.error Err.unauthorized ∧
      createDemoExpenses none now store = Except.error Err.unauthorized := by
  intros
  exact ⟨rfl, rfl, rfl, rfl, rfl, rfl⟩

/-- C4: for every resolved caller and every amount ≤ 0, `createExpense`
fails with the invalid-amount error and performs no insert (the error
carries no store, so the store is exactly as before). -/
theorem createExpense_rejects_nonpositive_amount :
    ∀ (uid : String) (store : Store) (amount : Int) (cid : String) (d : Int)
      (note : Option String), amount ≤ 0 →
      createExpense (some uid) store amount cid d note =
        Except.error Err.invalidAmount := by
  intro uid store amount cid d note h
  unfold createExpense
  dsimp only
  rw [if_pos h]

/-- C4 witness: amount 0 at a concrete store. -/
theorem createExpense_rejects_nonpositive_amount_witness :
    (0 : Int) ≤ 0 ∧
    createExpense (some "u") emptyStore 0 "c" 0 none =
      Except.error Err.invalidAmount :=
  ⟨le_refl 0,
   createExpense_rejects_nonpositive_amount "u" emptyStore 0 "c" 0 none
     (le_refl 0)⟩

/-- C5: `deleteExpense` on an id that does not exist and on an id owned by
a different user produce the same `NotFoundOrUnauthorized` error, and in
both cases the store — including the other user's record — is unmodified
(the error carries no store). -/
theorem deleteExpense_missing_or_foreign_same_error :
    ∀ (uid : String) (store : Store) (eid : Nat),
      (store.expenses.find? (fun x => x.id == eid) = none →
        deleteExpense (some uid) store eid =
          Except.error Err.notFoundOrUnauthorized) ∧
      (∀ x, store.expenses.find? (fun x => x.id == eid) = some x →
        x.userId ≠ uid →
        deleteExpense (some uid) store eid =
          Except.error Err.notFoundOrUnauthorized) := by
  intro uid store eid
  constructor
  · intro h
    unfold deleteExpense
    rw [h]
  · intro x h hx
    unfold deleteExpense
    rw [h]
    simp [hx]

/-- C5 witness: a nonexistent id and a foreign-owned id against the same
concrete store, producing the same error. -/
theorem deleteExpense_missing_or_foreign_same_error_witness :
    (foreignStore.expenses.find? (fun x => x.id == 99) = none ∧
      deleteExpense (some "u") foreignStore 99 =
        Except.error Err.notFoundOrUnauthorized) ∧
    (foreignStore.expenses.find? (fun x => x.id == 1) =
        some { id := 1, userId := "other", amount := 5, categoryId := "c",
               date := 0, note := none } ∧
      ("other" : String) ≠ "u" ∧
      deleteExpense (some "u") foreignStore 1 =
        Except.error Err.notFoundOrUnauthorized) :=
  ⟨⟨by decide,
    (deleteExpense_missing_or_foreign_same_error "u" foreignStore 99).1
      (by decide)⟩,
   ⟨by decide, by decide,
    (deleteExpense_missing_or_foreign_same_error "u" foreignStore 1).2
      { id := 1, userId := "other", amount := 5, categoryId := "c",
        date := 0, note := none }
      (by decide) (by decide)⟩⟩

/-- C6 (supporting theorem): on the failing input — amounts 0.10 and 0.20 —
the exact decimal sum demanded by the claim is 3/10, as the embedded
summary computes in exact rational arithmetic; but the sum of the IEEE-754
binary64 values the source actually adds (`amount.toNumber()` for each
row) is not 3/10, so a float accumulation cannot return the exact decimal
sum. -/
theorem getDashboardSummary_exact_sum_at_tenths :
    (getDashboardSummary (some "u") driftStore 0 10).map (fun r => r.total) =
      Except.ok 30 ∧
    ((30 : ℚ) / 100 = 1 / 10 + 2 / 10) ∧
    double01 + double02 ≠ 1 / 10 + 2 / 10 := by
  refine ⟨rfl, by norm_num, ?_⟩
  unfold double01 double02
  norm_num

/-- C7: `clearAllExpenses` removes exactly the caller's expenses and
returns their number; with zero matching expenses it returns 0 leaving the
store as it was, and an immediate second call returns 0 and changes
nothing. -/
theorem clearAllExpenses_deletes_exactly_callers :
    ∀ (uid : String) (store : Store),
      clearAllExpenses (some uid) store =
        Except.ok
          ({ store with
             expenses := store.expenses.filter (fun x => !(x.userId == uid)) },
           store.expenses.countP (fun x => x.userId == uid)) ∧
      (∀ x, x ∈ store.expenses.filter (fun x => !(x.userId == uid)) ↔
        x ∈ store.expenses ∧ x.userId ≠ uid) ∧
      ((∀ x ∈ store.expenses, x.userId ≠ uid) →
        clearAllExpenses (some uid) store = Except.ok (store, 0)) ∧
      clearAllExpenses (some uid)
          { store with
            expenses := store.expenses.filter (fun x => !(x.userId == uid)) } =
        Except.ok
          ({ store with
             expenses := store.expenses.filter (fun x => !(x.userId == uid)) },
           0) := by
  intro uid store
  refine ⟨rfl, ?_, ?_, ?_⟩
  · intro x
    simp [List.mem_filter]
  · intro h
    have hfil : store.expenses.filter (fun x => !(x.userId == uid)) =
        store.expenses := by
      rw [List.filter_eq_self]
      intro a ha
      simp [h a ha]
    have hcnt : store.expenses.countP (fun x => x.userId == uid) = 0 := by
      rw [List.countP_eq_zero]
      intro a ha
      simp [h a ha]
    unfold clearAllExpenses
    dsimp only
    rw [hfil, hcnt]
  · unfold clearAllExpenses
    dsimp only
    rw [List.filter_filter]
    have hfil : store.expenses.filter
        (fun a => !(a.userId == uid) && !(a.userId == uid)) =
        store.expenses.filter (fun x => !(x.userId == uid)) := by
      apply List.filter_congr
      intro a _
      rw [Bool.and_self]
    have hcnt : (store.expenses.filter
        (fun x => !(x.userId == uid))).countP (fun x => x.userId == uid) = 0 := by
      rw [List.countP_eq_zero]
      intro a ha
      have := (List.mem_filter.mp ha).2
      simp at this
      simp [this]
    rw [hfil, hcnt]

/-- C7 witness: a user with zero expenses gets 0 without error. -/
theorem clearAllExpenses_deletes_exactly_callers_witness :
    (∀ x ∈ emptyStore.expenses, x.userId ≠ "u") ∧
    clearAllExpenses (some "u") emptyStore = Except.ok (emptyStore, 0) :=
  ⟨fun x hx => absurd hx (List.not_mem_nil x),
   ((clearAllExpenses_deletes_exactly_callers "u" emptyStore).2.2.1
     (fun x hx => absurd hx (List.not_mem_nil x)))⟩

/-- C1: for every resolved caller, `getExpenses` restricts to the caller's
expenses with date in the inclusive window (plus category equality exactly
when a category other than the sentinel is given), applies offset
`(page-1)*pageSize` and limit `pageSize` to the sorted matching set, and
returns `{page, pageSize, total, totalPages = ceil(total/pageSize)}` with
`total` counting all matches ignoring pagination; in particular, for 25
matches with pageSize 10 and page 1 it returns totalPages 3 and exactly 10
items (skip 0, take 10). -/
theorem getExpenses_filters_sorts_paginates :
    (∀ (uid : String) (store : Store) (s e : Int) (catId : Option String)
       (sb : SortBy) (page pageSize : Nat),
       1 ≤ pageSize →
       (∀ c, catId = some c → c ≠ "") →
       getExpenses (some uid) store s e catId sb page pageSize =
         Except.ok
           ((((List.insertionSort (fun a b => sortLe sb a b = true)
                 (store.expenses.filter (specMatches uid s e catId))).drop
               ((page - 1) * pageSize)).take pageSize).map (joinCategory store),
            { page := page, pageSize := pageSize,
              total := (store.expenses.filter (specMatches uid s e catId)).length,
              totalPages :=
                specCeil
                  (store.expenses.filter (specMatches uid s e catId)).length
                  pageSize })) ∧
    (getExpenses (some "u") store25 0 30 none SortBy.dateAsc 1 10).toOption.map
        (fun r => (r.1.length, r.2)) =
      some (10, { page := 1, pageSize := 10, total := 25, totalPages := 3 }) := by
  constructor
  · intro uid store s e catId sb page pageSize hps hc
    have hfil : store.expenses.filter (expMatches uid s e catId) =
        store.expenses.filter (specMatches uid s e catId) := by
      apply List.filter_congr
      intro x _
      unfold expMatches specMatches
      cases catId with
      | none => rfl
      | some c =>
        have hce : c ≠ "" := hc c rfl
        by_cases hall : c = "all"
        · subst hall
          simp
        · simp [hall, hce]
    unfold getExpenses
    dsimp only
    rw [hfil, jsCeilDiv_eq_specCeil _ _ (by omega)]
  · decide

/-- C1 witness: the universal statement applied at the concrete
25-expense store with page 1 and pageSize 10. -/
theorem getExpenses_filters_sorts_paginates_witness :
    1 ≤ 10 ∧ (∀ c : String, (none : Option String) = some c → c ≠ "") ∧
    getExpenses (some "u") store25 0 30 none SortBy.dateAsc 1 10 =
      Except.ok
        ((((List.insertionSort (fun a b => sortLe SortBy.dateAsc a b = true)
              (store25.expenses.filter (specMatches "u" 0 30 none))).drop
            ((1 - 1) * 10)).take 10).map (joinCategory store25),
         { page := 1, pageSize := 10,
           total := (store25.expenses.filter (specMatches "u" 0 30 none)).length,
           totalPages :=
             specCeil (store25.expenses.filter (specMatches "u" 0 30 none)).length
               10 }) :=
  ⟨by omega, fun c h => Option.noConfusion h,
   (getExpenses_filters_sorts_paginates.1 "u" store25 0 30 none SortBy.dateAsc
     1 10 (by omega) (fun c h => Option.noConfusion h))⟩

/-- C10: the demo catalog reads the first six categories unconditionally,
so it is exactly the stores with at least six categories on which every
index access succeeds (the error branch is unreachable); with fewer than
six it fails, and `createDemoExpenses` surfaces that as the index error
while guarding only the 7th, 8th and 9th categories. -/
theorem demoCatalog_needs_six_categories :
    (∀ (cats : List Category) (now : Int), 6 ≤ cats.length →
      ∃ items, demoCatalog cats now = some items) ∧
    (∀ (cats : List Category) (now : Int), cats.length < 6 →
      demoCatalog cats now = none) ∧
    (∀ (uid : String) (now : Int) (store : Store),
      6 ≤ store.categories.length →
      createDemoExpenses (some uid) now store ≠ Except.error Err.indexError) ∧
    (∀ (uid : String) (now : Int) (store : Store),
      store.categories.length < 6 →
      createDemoExpenses (some uid) now store = Except.error Err.indexError) := by
  refine ⟨demoCatalog_isSome, demoCatalog_none, ?_, ?_⟩
  · intro uid now store h
    obtain ⟨items, hi⟩ := demoCatalog_isSome store.categories now h
    rw [createDemoExpenses_ok uid now store items hi]
    intro hcontra
    exact Except.noConfusion hcontra
  · intro uid now store h
    unfold createDemoExpenses
    dsimp only
    rw [demoCatalog_none store.categories now h]

/-- C10 witness: six categories succeed; an empty category list hits the
unconditional index access. -/
theorem demoCatalog_needs_six_categories_witness :
    6 ≤ sixCategoryStore.categories.length ∧
    (∃ items, demoCatalog sixCategoryStore.categories 0 = some items) ∧
    emptyStore.categories.length < 6 ∧
    createDemoExpenses (some "u") 0 emptyStore =
      Except.error Err.indexError :=
  ⟨by decide,
   demoCatalog_needs_six_categories.1 sixCategoryStore.categories 0 (by decide),
   by decide,
   demoCatalog_needs_six_categories.2.2.2 "u" 0 emptyStore (by decide)⟩

/-- C9: with at least six categories, `createDemoExpenses` inserts a fixed
number of expenses determined by the category count (23 plus 2 for each of
the 7th, 8th and 9th categories that exist), all owned by the caller, and
an immediate second call doubles the caller's expense-count increase. -/
theorem createDemoExpenses_structure :
    ∀ (uid : String) (now : Int) (store store' : Store),
      6 ≤ store.categories.length →
      createDemoExpenses (some uid) now store = Except.ok store' →
      store'.categories = store.categories ∧
      store'.expenses.length =
        store.expenses.length + demoCount store.categories.length ∧
      store'.expenses.countP (fun x => x.userId == uid) =
        store.expenses.countP (fun x => x.userId == uid) +
          demoCount store.categories.length ∧
      (∀ store'' : Store,
        createDemoExpenses (some uid) now store' = Except.ok store'' →
        store''.expenses.countP (fun x => x.userId == uid) =
          store.expenses.countP (fun x => x.userId == uid) +
            2 * demoCount store.categories.length) := by
  intro uid now store store' h6 hcr
  obtain ⟨items, hi⟩ := demoCatalog_isSome store.categories now h6
  have hlen := demoCatalog_length store.categories now items h6 hi
  rw [createDemoExpenses_ok uid now store items hi] at hcr
  have hst := Except.ok.inj hcr
  subst hst
  refine ⟨rfl, ?_, ?_, ?_⟩
  · dsimp only
    rw [List.length_append, List.length_map, List.enum_length, hlen]
  · dsimp only
    rw [List.countP_append, countP_demo_insert, hlen]
  · intro store'' hcr2
    have hi' : demoCatalog
        ({ store with
           expenses := store.expenses ++ items.enum.map (fun p =>
             { id := store.nextId + p.1, userId := uid, amount := p.2.1,
               categoryId := p.2.2.1, date := p.2.2.2.1,
               note := some p.2.2.2.2 }),
           nextId := store.nextId + items.length } : Store).categories now =
        some items := hi
    rw [createDemoExpenses_ok uid now _ items hi'] at hcr2
    have hst2 := Except.ok.inj hcr2
    subst hst2
    dsimp only
    rw [List.countP_append, List.countP_append, countP_demo_insert,
      countP_demo_insert, hlen]
    ring

/-- C9 witness: seeding the six-category store inserts exactly
`demoCount 6 = 23` expenses for the caller. -/
theorem createDemoExpenses_structure_witness :
    6 ≤ sixCategoryStore.categories.length ∧
    createDemoExpenses (some "u") 0 sixCategoryStore =
      Except.ok (okStore (createDemoExpenses (some "u") 0 sixCategoryStore)
        sixCategoryStore) ∧
    (okStore (createDemoExpenses (some "u") 0 sixCategoryStore)
        sixCategoryStore).expenses.length =
      sixCategoryStore.expenses.length +
        demoCount sixCategoryStore.categories.length :=
  ⟨by decide, by rfl,
   (createDemoExpenses_structure "u" 0 sixCategoryStore
     (okStore (createDemoExpenses (some "u") 0 sixCategoryStore)
       sixCategoryStore)
     (by decide) (by rfl)).2.1⟩

/-- C8: creating an expense with a valid amount and then immediately
listing over a window containing its date, with no category filter, page 1
and a page size at least the matching total, yields that expense exactly
once. -/
theorem createExpense_then_getExpenses_roundtrip :
    ∀ (uid : String) (store : Store) (amount : Int) (cid : String)
      (d s e : Int) (note : Option String) (sb : SortBy) (pageSize : Nat)
      (store' : Store) (data : List (Expense × Option Category))
      (pag : Pagination),
      0 < amount → s ≤ d → d ≤ e →
      (∀ x ∈ store.expenses, x.id ≠ store.nextId) →
      createExpense (some uid) store amount cid d note = Except.ok store' →
      (store'.expenses.filter (expMatches uid s e none)).length ≤ pageSize →
      getExpenses (some uid) store' s e none sb 1 pageSize =
        Except.ok (data, pag) →
      data.countP (fun r => r.1.id == store.nextId) = 1 := by
  intro uid store amount cid d s e note sb pageSize store' data pag
  intro hamt hs he hfresh hcr hsize hget
  unfold createExpense at hcr
  dsimp only at hcr
  rw [if_neg (by omega)] at hcr
  have hst := Except.ok.inj hcr
  subst hst
  unfold getExpenses at hget
  dsimp only at hget
  dsimp only at hsize
  have hpair := Except.ok.inj hget
  have hdata := congrArg Prod.fst hpair
  dsimp only at hdata
  subst hdata
  rw [List.countP_map]
  rw [show (1 - 1) * pageSize = 0 by omega, List.drop_zero]
  have hperm := List.perm_insertionSort (fun a b => sortLe sb a b = true)
    ((store.expenses ++
      [({ id := store.nextId, userId := uid, amount := amount,
          categoryId := cid, date := d,
          note := jsTruthyNote note } : Expense)]).filter
        (expMatches uid s e none))
  rw [List.take_of_length_le (by rw [hperm.length_eq]; exact hsize)]
  rw [hperm.countP_eq]
  rw [List.filter_append, List.countP_append]
  have hold : ∀ st : Store, (store.expenses.filter
      (expMatches uid s e none)).countP
      ((fun r : Expense × Option Category => r.1.id == store.nextId) ∘
        joinCategory st) = 0 := by
    intro st
    rw [List.countP_eq_zero]
    intro a ha
    have hmem := List.mem_of_mem_filter ha
    have hne := hfresh a hmem
    simp [joinCategory, hne]
  have hmatch : expMatches uid s e none
      { id := store.nextId, userId := uid, amount := amount,
        categoryId := cid, date := d, note := jsTruthyNote note } = true := by
    simp [expMatches, hs, he]
  rw [hold]
  rw [List.filter_cons, if_pos hmatch]
  simp [joinCategory]

/-- C8 witness: create amount 5 on an empty store, then list over a window
containing its date; the new expense appears exactly once. -/
theorem createExpense_then_getExpenses_roundtrip_witness :
    (0 : Int) < 5 ∧ (0 : Int) ≤ 1 ∧ (1 : Int) ≤ 2 ∧
    ((okPair (getExpenses (some "u")
        (okStore (createExpense (some "u") emptyStore 5 "c" 1 none)
          emptyStore) 0 2 none SortBy.dateDesc 1 10)).1).countP
      (fun r => r.1.id == emptyStore.nextId) = 1 :=
  ⟨by decide, by decide, by decide,
   createExpense_then_getExpenses_roundtrip "u" emptyStore 5 "c" 1 0 2 none
     SortBy.dateDesc 10
     (okStore (createExpense (some "u") emptyStore 5 "c" 1 none) emptyStore)
     (okPair (getExpenses (some "u")
       (okStore (createExpense (some "u") emptyStore 5 "c" 1 none)
         emptyStore) 0 2 none SortBy.dateDesc 1 10)).1
     (okPair (getExpenses (some "u")
       (okStore (createExpense (some "u") emptyStore 5 "c" 1 none)
         emptyStore) 0 2 none SortBy.dateDesc 1 10)).2
     (by decide) (by decide) (by decide)
     (fun x hx => absurd hx (List.not_mem_nil x))
     (by rfl) (by decide) (by rfl)⟩

/-- C2: `getDashboardSummary` fetches the caller's whole window without
pagination and returns the sum of amounts, the count, and one group per
distinct category display name (grouped by `category.name`) carrying that
group's total and count, ordered descending by group total; in particular
expenses 100 and 200 in Food and 150 in Transport give total 450, count 3,
and byCategory [Food 300 over 2, Transport 150 over 1]. -/
theorem getDashboardSummary_aggregates :
    (∀ (uid : String) (store : Store) (s e : Int) (r : DashboardSummary),
      getDashboardSummary (some uid) store s e = Except.ok r →
      r.total = ((windowExpenses uid s e store).map (fun x => x.amount)).sum ∧
      r.count = (windowExpenses uid s e store).length ∧
      (r.byCategory.map (fun g => g.name)).Nodup ∧
      (∀ n, n ∈ r.byCategory.map (fun g => g.name) ↔
        n ∈ (windowExpenses uid s e store).map (categoryNameOf store)) ∧
      (∀ g ∈ r.byCategory,
        g.total = groupTotal (categoryNameOf store) g.name
          (windowExpenses uid s e store) ∧
        g.count = groupCount (categoryNameOf store) g.name
          (windowExpenses uid s e store)) ∧
      r.byCategory.Pairwise (fun a b => b.total ≤ a.total)) ∧
    getDashboardSummary (some "u") exampleStore 0 10 =
      Except.ok exampleSummary := by
  constructor
  · intro uid store s e r hr
    unfold getDashboardSummary at hr
    dsimp only at hr
    have hre := Except.ok.inj hr
    subst hre
    have hperm := List.perm_insertionSort
      (fun a b : CategorySummary => b.total ≤ a.total)
      (groupByCategory store (windowExpenses uid s e store))
    have hnodup : ((groupByCategory store
        (windowExpenses uid s e store)).map (fun g => g.name)).Nodup := by
      unfold groupByCategory
      exact foldl_addToGroups_nodup (categoryNameOf store)
        (windowExpenses uid s e store) [] (by simp)
    refine ⟨?_, rfl, ?_, ?_, ?_, ?_⟩
    · dsimp only
      rw [foldl_add_amount, zero_add]
    · dsimp only
      exact ((hperm.map (fun g => g.name)).nodup_iff).mpr hnodup
    · intro n
      dsimp only
      rw [(hperm.map (fun g => g.name)).mem_iff]
      unfold groupByCategory
      rw [foldl_addToGroups_mem]
      simp
    · intro g hg
      dsimp only at hg
      have hg' : g ∈ groupByCategory store (windowExpenses uid s e store) :=
        hperm.mem_iff.mp hg
      have hgm := group_of_mem _ g hnodup hg'
      have htot := foldl_addToGroups_accTotal (categoryNameOf store)
        (windowExpenses uid s e store) [] g.name
      have hcnt := foldl_addToGroups_accCount (categoryNameOf store)
        (windowExpenses uid s e store) [] g.name
      have hz1 : accTotal g.name [] = 0 := by simp [accTotal]
      have hz2 : accCount g.name [] = 0 := by simp [accCount]
      unfold groupByCategory at hgm
      constructor
      · rw [← hgm.1, htot, hz1, zero_add]
      · rw [← hgm.2, hcnt, hz2, Nat.zero_add]
    · dsimp only
      haveI : IsTotal CategorySummary (fun a b => b.total ≤ a.total) :=
        ⟨fun a b => le_total b.total a.total⟩
      haveI : IsTrans CategorySummary (fun a b => b.total ≤ a.total) :=
        ⟨fun _ _ _ hab hbc => le_trans hbc hab⟩
      exact List.sorted_insertionSort _ _
  · decide

/-- C2 witness: the universal statement applied at the worked example,
recovering the example total from the window sum. -/
theorem getDashboardSummary_aggregates_witness :
    getDashboardSummary (some "u") exampleStore 0 10 =
      Except.ok exampleSummary ∧
    exampleSummary.total =
      ((windowExpenses "u" 0 10 exampleStore).map (fun x => x.amount)).sum :=
  ⟨by decide,
   (getDashboardSummary_aggregates.1 "u" exampleStore 0 10 exampleSummary
     (by decide)).1⟩
